import Mathlib

/-!
Verification of the WifiObserver discovery & classification engine.

This file gives a shallow embedding of the repository's core modules —
`src/network_classifier.py` (heuristic classification scorer),
`src/wifi_scanner.py` (station store and hidden-network resolver) and
`src/signal_analyzer.py` (signal stability analyzer) — and proves the
specification claims about them.
-/

namespace WifiObserver

/-! ## String helpers

Python's `pat in s` substring test, modelled on character lists.
`String.toUpper` models Python's `str.upper()` (the keyword lists are ASCII).
-/

/-- Is `p` a leading segment of `s`? -/
def isPrefList : List Char → List Char → Bool
  | [], _ => true
  | _ :: _, [] => false
  | a :: as, b :: bs => a = b && isPrefList as bs

/-- Does `p` occur contiguously inside `s`?  (Python `p in s` on strings.) -/
def containsSub (p : List Char) : List Char → Bool
  | [] => p.isEmpty
  | c :: t => isPrefList p (c :: t) || containsSub p t

/-- Python `pat in s` for strings. -/
def containsStr (s pat : String) : Bool := containsSub pat.toList s.toList

/-- Python's `str.upper()` (agrees with `String.toUpper`; written by
structural recursion over the character list so that proofs can evaluate
it). -/
def toUpperStr (s : String) : String := ⟨s.data.map Char.toUpper⟩

end WifiObserver

namespace NetworkClassifier

open WifiObserver

/-! ## Classification scorer (`src/network_classifier.py`)

The category names, keyword lists and vendor lists are copied verbatim from
the source's `NETWORK_TYPES` / `MANUFACTURER_TYPES` dictionaries.  The spec's
names OFFICIAL and ISP_DEFAULT correspond to the source's POSSIBLE_OFFICIAL
and ISP_PROVIDED.
-/

/-- The closed set of classification outcomes, in the source's dict-insertion
order, which is also the tie-break priority order. -/
inductive Category where
  | POSSIBLE_OFFICIAL
  | ENTERPRISE
  | MOBILE_HOTSPOT
  | PUBLIC
  | IOT
  | ISP_PROVIDED
  | STANDARD
deriving DecidableEq, Repr

/-- Source list `NETWORK_TYPES["POSSIBLE_OFFICIAL"]["ssid_patterns"]`. -/
def OFFICIAL_PATTERNS : List String :=
  ["FBI", "GOV", "POLICE", "FED", "MIL", "DOD", "SECURE",
   "AGENCY", "OFFICIAL", "LEO", "DHS", "EMERGENCY", "EMERG"]

/-- Source list `NETWORK_TYPES["ENTERPRISE"]["ssid_patterns"]`. -/
def ENTERPRISE_PATTERNS : List String :=
  ["CORP", "ENTERPRISE", "STAFF", "EMPLOYEE", "CORPORATE",
   "OFFICE", "BUSINESS", "COMPANY", "INC", "LLC", "LTD"]

/-- Source list `NETWORK_TYPES["MOBILE_HOTSPOT"]["ssid_patterns"]`. -/
def MOBILE_PATTERNS : List String :=
  ["IPHONE", "ANDROID", "GALAXY", "MOBILE", "HOTSPOT",
   "MiFi", "PHONE", "POCKET", "SAMSUNG", "HUAWEI", "USB"]

/-- Source list `NETWORK_TYPES["PUBLIC"]["ssid_patterns"]`. -/
def PUBLIC_PATTERNS : List String :=
  ["PUBLIC", "GUEST", "FREE", "WIFI", "AIRPORT", "HOTEL",
   "CAFE", "RESTAURANT", "OPEN", "LIBRARY", "STORE"]

/-- Source list `NETWORK_TYPES["IOT"]["ssid_patterns"]`. -/
def IOT_PATTERNS : List String :=
  ["CAM", "CAMERA", "RING", "NEST", "SMART", "HOME",
   "DEVICE", "SENSOR", "THERMOSTAT", "BULB", "TV", "ROKU"]

/-- Source list `NETWORK_TYPES["ISP_PROVIDED"]["ssid_patterns"]`. -/
def ISP_PATTERNS : List String :=
  ["XFINITY", "COMCAST", "SPECTRUM", "ATT", "VERIZON",
   "FIOS", "OPTIMUM", "COX", "CENTURYLINK", "FRONTIER", "ROUTER"]

/-- Source list `MANUFACTURER_TYPES["GOVERNMENT"]`. -/
def GOVERNMENT_MFGS : List String :=
  ["HARRIS", "GENERAL DYNAMICS", "NORTHROP", "LOCKHEED", "RAYTHEON"]

/-- Source list `MANUFACTURER_TYPES["ENTERPRISE"]`. -/
def ENTERPRISE_MFGS : List String :=
  ["CISCO", "ARUBA", "JUNIPER", "EXTREME", "FORTINET", "RUCKUS"]

/-- Source list `MANUFACTURER_TYPES["CONSUMER"]`. -/
def CONSUMER_MFGS : List String :=
  ["NETGEAR", "LINKSYS", "TP-LINK", "D-LINK", "BELKIN", "ASUS"]

/-- Source list `MANUFACTURER_TYPES["MOBILE"]`. -/
def MOBILE_MFGS : List String :=
  ["APPLE", "SAMSUNG", "GOOGLE", "HUAWEI", "XIAOMI", "MOTOROLA", "HTC"]

/-- Source list `MANUFACTURER_TYPES["IOT"]`. -/
def IOT_MFGS : List String :=
  ["NEST", "RING", "ECOBEE", "WYZE", "SONOS", "ROKU", "AMAZON"]

/-- The fields of `network_data` read by `classify_network` (with the source's
`dict.get` defaults already applied by the caller). -/
structure NetworkData where
  ssid : String
  encryption : String
  hidden : Bool
  manufacturer : String
  signal : Int
deriving DecidableEq, Repr

/-- The per-category integer score table (`scores` dict in the source),
fields in the source's insertion order. -/
structure Scores where
  POSSIBLE_OFFICIAL : Nat
  ENTERPRISE : Nat
  MOBILE_HOTSPOT : Nat
  PUBLIC : Nat
  IOT : Nat
  ISP_PROVIDED : Nat
  STANDARD : Nat
deriving DecidableEq, Repr

/-- Score lookup by category. -/
def Scores.get (s : Scores) : Category → Nat
  | .POSSIBLE_OFFICIAL => s.POSSIBLE_OFFICIAL
  | .ENTERPRISE => s.ENTERPRISE
  | .MOBILE_HOTSPOT => s.MOBILE_HOTSPOT
  | .PUBLIC => s.PUBLIC
  | .IOT => s.IOT
  | .ISP_PROVIDED => s.ISP_PROVIDED
  | .STANDARD => s.STANDARD

/-- The source's inner loop `for pattern in ...: if pattern in ssid: score += 4`,
generalized over the increment (4 for SSID patterns, 4/3 for vendor lists). -/
def addMatches (hay : String) (pats : List String) (inc : Nat) (cur : Nat) : Nat :=
  pats.foldl (fun acc p => if containsStr hay p then acc + inc else acc) cur

/-- Source loop `for network_type, type_data in NETWORK_TYPES.items()`. -/
def ssidPatternPass (ssid : String) (s : Scores) : Scores :=
  let s := { s with POSSIBLE_OFFICIAL := addMatches ssid OFFICIAL_PATTERNS 4 s.POSSIBLE_OFFICIAL }
  let s := { s with ENTERPRISE := addMatches ssid ENTERPRISE_PATTERNS 4 s.ENTERPRISE }
  let s := { s with MOBILE_HOTSPOT := addMatches ssid MOBILE_PATTERNS 4 s.MOBILE_HOTSPOT }
  let s := { s with PUBLIC := addMatches ssid PUBLIC_PATTERNS 4 s.PUBLIC }
  let s := { s with IOT := addMatches ssid IOT_PATTERNS 4 s.IOT }
  { s with ISP_PROVIDED := addMatches ssid ISP_PATTERNS 4 s.ISP_PROVIDED }

/-- The CONSUMER vendor loop adds to two categories per match. -/
def consumerPass (m : String) (s : Scores) : Scores :=
  CONSUMER_MFGS.foldl
    (fun st x =>
      if containsStr m x then
        { st with STANDARD := st.STANDARD + 2, ISP_PROVIDED := st.ISP_PROVIDED + 1 }
      else st) s

/-- Source loop `for mfg_type, mfg_list in MANUFACTURER_TYPES.items()`. -/
def mfgPass (m : String) (s : Scores) : Scores :=
  let s := { s with POSSIBLE_OFFICIAL := addMatches m GOVERNMENT_MFGS 4 s.POSSIBLE_OFFICIAL }
  let s := { s with ENTERPRISE := addMatches m ENTERPRISE_MFGS 3 s.ENTERPRISE }
  let s := consumerPass m s
  let s := { s with MOBILE_HOTSPOT := addMatches m MOBILE_MFGS 4 s.MOBILE_HOTSPOT }
  { s with IOT := addMatches m IOT_MFGS 4 s.IOT }

/-- The evidence-accumulation phase of `classify_network`
(`src/network_classifier.py` lines 81-138), in source order. -/
def computeScores (nd : NetworkData) : Scores :=
  let ssid := toUpperStr nd.ssid
  let manufacturer := toUpperStr nd.manufacturer
  let s : Scores := ⟨0, 0, 0, 0, 0, 0, 0⟩
  let s := if nd.hidden then
      { s with POSSIBLE_OFFICIAL := s.POSSIBLE_OFFICIAL + 3, ENTERPRISE := s.ENTERPRISE + 2 }
    else s
  let s := if nd.encryption = "WPA2/WPA3" then
      { s with POSSIBLE_OFFICIAL := s.POSSIBLE_OFFICIAL + 2, ENTERPRISE := s.ENTERPRISE + 2,
               ISP_PROVIDED := s.ISP_PROVIDED + 1 }
    else if nd.encryption = "Open" then { s with PUBLIC := s.PUBLIC + 3 }
    else s
  let s := ssidPatternPass ssid s
  let s := mfgPass manufacturer s
  if nd.signal > -40 then
    { s with STANDARD := s.STANDARD + 1, ISP_PROVIDED := s.ISP_PROVIDED + 1 }
  else if nd.signal < -80 then { s with MOBILE_HOTSPOT := s.MOBILE_HOTSPOT + 1 }
  else s

/-- The categories in the source's dict-insertion order, which coincides with
the source's `priorities` tie-break list. -/
def priorities : List Category :=
  [.POSSIBLE_OFFICIAL, .ENTERPRISE, .MOBILE_HOTSPOT, .PUBLIC, .IOT, .ISP_PROVIDED, .STANDARD]

/-- Source expression `scores.items()` in dict order. -/
def scoresList (s : Scores) : List (Category × Nat) :=
  [(.POSSIBLE_OFFICIAL, s.POSSIBLE_OFFICIAL), (.ENTERPRISE, s.ENTERPRISE),
   (.MOBILE_HOTSPOT, s.MOBILE_HOTSPOT), (.PUBLIC, s.PUBLIC), (.IOT, s.IOT),
   (.ISP_PROVIDED, s.ISP_PROVIDED), (.STANDARD, s.STANDARD)]

/-- Source expression `max(scores.values())` (all scores are naturals, so folding from 0 agrees
with Python's max over the nonempty value list). -/
def maxScore (s : Scores) : Nat :=
  ((scoresList s).map Prod.snd).foldl Nat.max 0

/-- The source's `for p in priorities: if p in candidates: return p` loop. -/
def pickTie (cands : List Category) : Option Category :=
  priorities.find? (fun p => cands.contains p)

/-- The resolution phase of `classify_network`
(`src/network_classifier.py` lines 140-161).  Confidence is modelled in ℚ. -/
def resolveScores (s : Scores) : Category × ℚ :=
  let m := maxScore s
  if m = 0 then (.STANDARD, 0)
  else
    let cands := ((scoresList s).filter (fun p => p.2 == m)).map Prod.fst
    match cands with
    | [c] => (c, min 1 ((m : ℚ) / 10))
    | _ =>
      match pickTie cands with
      | some p => (p, min (7/10 : ℚ) ((m : ℚ) / 10))
      | none => (.STANDARD, 0)

/-- Source function `classify_network(network_data)` (`src/network_classifier.py` lines 72-161). -/
def classify_network (nd : NetworkData) : Category × ℚ :=
  resolveScores (computeScores nd)

/-! ### Spec-side definitions (written from the claims' words, for refinement) -/

/-- Modelled from the claim's words: resolution of the score table.  If the
maximum is 0, `(STANDARD, 0.0)`; if exactly one category attains the maximum,
that category with `min(1, max/10)`; if several tie, the tied category coming
first in the fixed priority order, with `min(0.7, max/10)`. -/
def specResolve (s : Scores) : Category × ℚ :=
  let m := maxScore s
  if m = 0 then (.STANDARD, 0)
  else
    match priorities.filter (fun c => s.get c == m) with
    | [c] => (c, min 1 ((m : ℚ) / 10))
    | c :: _ :: _ => (c, min (7/10 : ℚ) ((m : ℚ) / 10))
    | [] => (.STANDARD, 0)

/-- Number of keywords from `pats` contained in `hay`. -/
def countKw (hay : String) (pats : List String) : Nat :=
  pats.countP (fun p => containsStr hay p)

/-- Modelled from the claim's words: each category's score is the sum of its
independent evidence contributions (concealment, encryption, stacked keyword
matches at +4 each, stacked vendor-class matches, signal-level bonuses). -/
def specScores (nd : NetworkData) : Scores :=
  let ssid := toUpperStr nd.ssid
  let m := toUpperStr nd.manufacturer
  { POSSIBLE_OFFICIAL := (if nd.hidden then 3 else 0)
      + (if nd.encryption = "WPA2/WPA3" then 2 else 0)
      + 4 * countKw ssid OFFICIAL_PATTERNS + 4 * countKw m GOVERNMENT_MFGS,
    ENTERPRISE := (if nd.hidden then 2 else 0)
      + (if nd.encryption = "WPA2/WPA3" then 2 else 0)
      + 4 * countKw ssid ENTERPRISE_PATTERNS + 3 * countKw m ENTERPRISE_MFGS,
    MOBILE_HOTSPOT := 4 * countKw ssid MOBILE_PATTERNS + 4 * countKw m MOBILE_MFGS
      + (if nd.signal < -80 then 1 else 0),
    PUBLIC := (if nd.encryption = "Open" then 3 else 0)
      + 4 * countKw ssid PUBLIC_PATTERNS,
    IOT := 4 * countKw ssid IOT_PATTERNS + 4 * countKw m IOT_MFGS,
    ISP_PROVIDED := (if nd.encryption = "WPA2/WPA3" then 1 else 0)
      + 4 * countKw ssid ISP_PATTERNS + countKw m CONSUMER_MFGS
      + (if nd.signal > -40 then 1 else 0),
    STANDARD := 2 * countKw m CONSUMER_MFGS + (if nd.signal > -40 then 1 else 0) }

end NetworkClassifier

namespace WifiScanner

open WifiObserver

/-! ## Station store and hidden-network resolver (`src/wifi_scanner.py`)

The module's global state is the `networks` dict (station identifier →
record) and the `hidden_networks` set, modelled as functions from the
identifier type `String`.  A decoder event carries the fields the frame
decoder extracts from a packet; `ssidDec = none` models a failing
`.decode("utf-8")`.
-/

/-- One entry of the `networks` dict (the dict literal at
`src/wifi_scanner.py` lines 122-133). -/
structure NetRecord where
  ssid : String
  bssid : String
  channel : Nat
  encryption : String
  signal : Int
  manufacturer : String
  first_seen : Nat
  last_seen : Nat
  hidden : Bool
  type : String
deriving DecidableEq, Repr

/-- The scanner module's mutable state: the `networks` dict and the
`hidden_networks` set. -/
structure ScanState where
  networks : String → Option NetRecord
  hidden_networks : String → Bool

/-- The scanner's own `classify_network(ssid, bssid, encryption, manufacturer)`
(`src/wifi_scanner.py` lines 244-265); it reads only `ssid`. -/
def classify_network (ssid : String) (_bssid _encryption _manufacturer : String) : String :=
  let u := toUpperStr ssid
  if ["FBI", "GOV", "POLICE", "FED", "MIL", "DOD", "SECURE"].any (fun p => containsStr u p) then
    "POSSIBLE_OFFICIAL"
  else if ["CORP", "ENTERPRISE", "STAFF", "EMPLOYEE"].any (fun p => containsStr u p) then
    "ENTERPRISE"
  else if ["IPHONE", "ANDROID", "GALAXY", "MOBILE", "HOTSPOT"].any (fun p => containsStr u p) then
    "MOBILE_HOTSPOT"
  else if ["PUBLIC", "GUEST", "FREE", "WIFI"].any (fun p => containsStr u p) then
    "PUBLIC"
  else "STANDARD"

/-- Source function `process_beacon(packet)` (`src/wifi_scanner.py` lines 88-136).  The frame
decoder's outputs (bssid, decoded ssid, channel, encryption, signal,
manufacturer) and the clock reading `t` are the event's fields.  For a known
`bssid` the source updates only `signal` and `last_seen` and returns early. -/
def process_beacon (st : ScanState) (bssid : String) (ssidDec : Option String)
    (channel : Nat) (encryption : String) (signal : Int) (manufacturer : String)
    (t : Nat) : ScanState :=
  match st.networks bssid with
  | some r =>
      { st with networks := fun j =>
          if j = bssid then some { r with signal := signal, last_seen := t }
          else st.networks j }
  | none =>
      let ssid0 := match ssidDec with
        | none => "Unknown"
        | some s => s
      let hiddenSet := if ssid0 = "" then
          (fun j => if j = bssid then true else st.hidden_networks j)
        else st.hidden_networks
      let ssid := if ssid0 = "" then "[Hidden Network]" else ssid0
      let newR : NetRecord :=
        { ssid := ssid, bssid := bssid, channel := channel, encryption := encryption,
          signal := signal, manufacturer := manufacturer, first_seen := t, last_seen := t,
          hidden := ssid = "[Hidden Network]",
          type := classify_network ssid bssid encryption manufacturer }
      { networks := fun j => if j = bssid then some newR else st.networks j,
        hidden_networks := hiddenSet }

/-- Source function `process_probe_response(packet)` (`src/wifi_scanner.py` lines 139-159).
A failing SSID decode (`ssidDec = none`) returns immediately; otherwise the
update fires only for a station in `hidden_networks` whose record exists and
whose disclosed name is non-empty and not the sentinel. -/
def process_probe_response (st : ScanState) (bssid : String) (ssidDec : Option String)
    (t : Nat) : ScanState :=
  match ssidDec with
  | none => st
  | some ssid =>
      if st.hidden_networks bssid then
        if ssid ≠ "" ∧ ssid ≠ "[Hidden Network]" then
          match st.networks bssid with
          | some r =>
              { networks := fun j =>
                  if j = bssid then some { r with ssid := ssid, hidden := false, last_seen := t }
                  else st.networks j,
                hidden_networks := fun j => if j = bssid then false else st.hidden_networks j }
          | none => st
        else st
      else st

/-- A decoder event, as dispatched by `process_packet`
(`src/wifi_scanner.py` lines 78-85). -/
inductive WEvent where
  | beacon (bssid : String) (ssidDec : Option String) (channel : Nat)
      (encryption : String) (signal : Int) (manufacturer : String) (t : Nat)
  | probe (bssid : String) (ssidDec : Option String) (t : Nat)

/-- Source function `process_packet(packet)`: dispatch on the frame kind. -/
def process_packet (st : ScanState) : WEvent → ScanState
  | .beacon b sd ch e sg m t => process_beacon st b sd ch e sg m t
  | .probe b sd t => process_probe_response st b sd t

/-- Processing a captured event sequence in arrival order. -/
def run_events (st : ScanState) (evs : List WEvent) : ScanState :=
  evs.foldl process_packet st

/-- The module's initial state: empty `networks` dict, empty
`hidden_networks` set. -/
def init_state : ScanState :=
  { networks := fun _ => none, hidden_networks := fun _ => false }

/-- The spec's ConcealedSet invariant: `hidden_networks` holds exactly the
identifiers of records whose `hidden` flag is true. -/
def Inv (st : ScanState) : Prop :=
  ∀ j, st.hidden_networks j = true ↔ (st.networks j).map NetRecord.hidden = some true

/-- An event sequence in which no beacon's decoded name is the literal
sentinel string `"[Hidden Network]"`. -/
def goodEvent : WEvent → Prop
  | .beacon _ sd _ _ _ _ _ => sd ≠ some "[Hidden Network]"
  | .probe _ _ _ => True

/-- Station `b` has been resolved: its record exists with `hidden = false`,
and `b` is not in `hidden_networks`. -/
def resolvedFor (st : ScanState) (b : String) : Prop :=
  (st.networks b).map NetRecord.hidden = some false ∧ st.hidden_networks b = false

/-- A concrete concealed station record, used for witnesses. -/
def hiddenRec : NetRecord :=
  { ssid := "[Hidden Network]", bssid := "aa", channel := 6, encryption := "WPA2",
    signal := -55, manufacturer := "CISCO", first_seen := 1, last_seen := 1,
    hidden := true, type := "STANDARD" }

/-- A concrete visible station record, used for witnesses. -/
def visibleRec : NetRecord :=
  { ssid := "CAFE", bssid := "bb", channel := 1, encryption := "Open",
    signal := -70, manufacturer := "Unknown", first_seen := 2, last_seen := 2,
    hidden := false, type := "PUBLIC" }

/-- A concrete two-station state with `"aa"` concealed and `"bb"` visible,
used for witnesses. -/
def twoStationState : ScanState :=
  { networks := fun j =>
      if j = "aa" then some hiddenRec
      else if j = "bb" then some visibleRec
      else none,
    hidden_networks := fun j => j = "aa" }

end WifiScanner

namespace SignalAnalyzer

/-! ## Signal stability analyzer (`src/signal_analyzer.py`)

The analyzer module keeps its own `networks` dict and `signal_history` dict;
`analyze_signal_stability` is a pure reduction over a `(timestamp, signal)`
sample list.  `np.std` computes the population standard deviation; since the
stability thresholds only compare `std_dev < c` for positive `c`, which is
equivalent to `variance < c²`, the embedding carries the exact rational
variance `std_dev_sq` and compares against 4, 25 and 100.
-/

/-- One entry of the analyzer's `networks` dict
(`src/signal_analyzer.py` lines 101-114). -/
structure SigRecord where
  ssid : String
  bssid : String
  first_seen : Nat
  last_seen : Nat
  signals : List (Nat × Int)
deriving DecidableEq, Repr

/-- The analyzer module's mutable state: `networks` and `signal_history`. -/
structure SigState where
  networks : String → Option SigRecord
  signal_history : String → List (Nat × Int)

/-- Source function `process_beacon(packet)` (`src/signal_analyzer.py` lines 76-117): create
the record if absent, then set `last_seen` and append the sample to both
`signals` and `signal_history`. -/
def process_beacon (st : SigState) (bssid : String) (ssidDec : Option String)
    (signal : Int) (t : Nat) : SigState :=
  let ssid0 := match ssidDec with
    | none => "Unknown"
    | some s => s
  let ssid := if ssid0 = "" then "[Hidden Network]" else ssid0
  let r : SigRecord := match st.networks bssid with
    | some r => r
    | none => { ssid := ssid, bssid := bssid, first_seen := t, last_seen := t, signals := [] }
  let r' : SigRecord := { r with last_seen := t, signals := r.signals ++ [(t, signal)] }
  { networks := fun j => if j = bssid then some r' else st.networks j,
    signal_history := fun j =>
      if j = bssid then st.signal_history j ++ [(t, signal)] else st.signal_history j }

/-- Insert into a sorted list (ascending). -/
def insertSorted (x : Int) : List Int → List Int
  | [] => [x]
  | y :: ys => if x ≤ y then x :: y :: ys else y :: insertSorted x ys

/-- Sort an integer list ascending (models numpy's sort inside `np.median`). -/
def sortInts (l : List Int) : List Int := l.foldr insertSorted []

/-- Model of `np.median`: middle element of the sorted values, or the mean of the two
middle elements for an even count. -/
def medianInt (l : List Int) : ℚ :=
  let s := sortInts l
  let n := s.length
  if n % 2 = 1 then ((s.getD (n / 2) 0 : Int) : ℚ)
  else (((s.getD (n / 2 - 1) 0 : Int) : ℚ) + ((s.getD (n / 2) 0 : Int) : ℚ)) / 2

/-- Python `min(list)` over a nonempty integer list (0 for the empty list,
which the source never reaches). -/
def listMin : List Int → Int
  | [] => 0
  | x :: xs => xs.foldl Min.min x

/-- Python `max(list)` over a nonempty integer list. -/
def listMax : List Int → Int
  | [] => 0
  | x :: xs => xs.foldl Max.max x

/-- Sum of an integer list. -/
def sumInts (l : List Int) : Int := l.foldl (· + ·) 0

/-- Model of `np.mean` of an integer list, as an exact rational. -/
def meanQ (l : List Int) : ℚ := (sumInts l : ℚ) / (l.length : ℚ)

/-- The square of `np.std` (population variance), as an exact rational. -/
def varQ (l : List Int) : ℚ :=
  (l.map (fun v => ((v : ℚ) - meanQ l) ^ 2)).foldl (· + ·) 0 / (l.length : ℚ)

/-- The result dictionary of `analyze_signal_stability`.  The early
insufficient-data return (`src/signal_analyzer.py` line 157) lacks the
`mean`/`median`/`min`/`max` keys, modelled as `none`.  The source stores
`std_dev` (and rounds `std_dev`/`mean`/`median` for display); the embedding
stores the exact squared deviation and exact mean/median, which determine
them. -/
structure StabilityReport where
  stability : String
  std_dev_sq : ℚ
  mean : Option ℚ
  median : Option ℚ
  sigMin : Option Int
  sigMax : Option Int
  range : Int
  trend : String
deriving DecidableEq, Repr

/-- Source function `analyze_signal_stability(signals, network_info)`
(`src/signal_analyzer.py` lines 146-206).  Stability thresholds
`std_dev < 2 / 5 / 10` appear as `variance < 4 / 25 / 100`. -/
def analyze_signal_stability (signals : List (Nat × Int)) : StabilityReport :=
  if signals.length < 3 then
    { stability := "Unknown", std_dev_sq := 0, mean := none, median := none,
      sigMin := none, sigMax := none, range := 0, trend := "Unknown" }
  else
    let signal_values := signals.map Prod.snd
    let mean := meanQ signal_values
    let var := varQ signal_values
    let min_signal := listMin signal_values
    let max_signal := listMax signal_values
    let stability :=
      if var < 4 then "Very Stable"
      else if var < 25 then "Stable"
      else if var < 100 then "Moderately Stable"
      else "Unstable"
    let trend :=
      if signal_values.length ≥ 10 then
        let first_half := signal_values.take (signal_values.length / 2)
        let second_half := signal_values.drop (signal_values.length / 2)
        let first_mean := meanQ first_half
        let second_mean := meanQ second_half
        if second_mean - first_mean > 3 then "Improving"
        else if first_mean - second_mean > 3 then "Deteriorating"
        else "Stable"
      else "Insufficient Data"
    { stability := stability, std_dev_sq := var, mean := some mean,
      median := some (medianInt signal_values), sigMin := some min_signal,
      sigMax := some max_signal, range := max_signal - min_signal, trend := trend }

end SignalAnalyzer

/-! ## Theorems -/

open WifiObserver NetworkClassifier WifiScanner SignalAnalyzer

/-- Lemma: `scores.items()` is the priority list paired with each score. -/
lemma scoresList_eq (s : Scores) :
    scoresList s = priorities.map (fun c => (c, s.get c)) := rfl

/-- Projecting the first components out of a filtered pairing list gives a
plain filter. -/
lemma filter_map_fst (f : Category → Nat) (m : Nat) :
    ∀ l : List Category,
      ((l.map (fun c => (c, f c))).filter (fun p => p.2 == m)).map Prod.fst
        = l.filter (fun c => f c == m) := by
  intro l
  induction l with
  | nil => rfl
  | cons x xs ih =>
    by_cases hx : f x == m <;> simp [List.filter_cons, hx, ih]

/-- Scanning `l` for the first element of `l.filter q` finds the head of
`l.filter q` — the source's priority loop returns the first tied category. -/
lemma find_contains_filter (q : Category → Bool) :
    ∀ l : List Category,
      l.find? (fun p => (l.filter q).contains p) = (l.filter q).head? := by
  intro l
  induction l with
  | nil => rfl
  | cons x xs ih =>
    by_cases hx : q x
    · rw [List.filter_cons_of_pos hx]
      have hpos : (fun p => ((x :: List.filter q xs).contains p)) x = true := by
        simp
      rw [List.find?_cons_of_pos _ hpos]
      rfl
    · rw [List.filter_cons_of_neg hx]
      have hnotmem : ¬ x ∈ xs.filter q := by
        intro hc
        exact hx (List.mem_filter.mp hc).2
      have hneg : ¬ (fun p => ((List.filter q xs).contains p)) x = true := by
        simpa [List.contains_eq_any_beq, List.any_eq_true] using hnotmem
      rw [List.find?_cons_of_neg _ hneg]
      exact ih

/-- The source's resolution phase coincides with the claim's description of
it. -/
lemma resolveScores_eq_specResolve (s : Scores) :
    resolveScores s = specResolve s := by
  have hpick : pickTie (priorities.filter (fun c => s.get c == maxScore s))
      = (priorities.filter (fun c => s.get c == maxScore s)).head? :=
    find_contains_filter (fun c => s.get c == maxScore s) priorities
  have hc : ((scoresList s).filter (fun p => p.2 == maxScore s)).map Prod.fst
      = priorities.filter (fun c => s.get c == maxScore s) := by
    rw [scoresList_eq]
    exact filter_map_fst (fun c => s.get c) (maxScore s) priorities
  unfold resolveScores specResolve
  by_cases hm : maxScore s = 0
  · simp [hm]
  · simp only [hm, if_false]
    rw [hc]
    revert hpick
    generalize priorities.filter (fun c => s.get c == maxScore s) = L
    intro hpick
    rcases L with _ | ⟨c, _ | ⟨c2, tl⟩⟩
    · simp [hpick]
    · rfl
    · simp [hpick]

/-- C1: `classify_network` resolves the score table exactly as the claim
describes — `(STANDARD, 0)` on an all-zero table, the unique maximiser with
`min(1, max/10)` when one category attains the maximum, and otherwise the
first tied category in the fixed priority order with `min(0.7, max/10)`
(`specResolve`); moreover a tied result never has confidence above `0.7`. -/
theorem classifier_resolution_spec (nd : NetworkData) :
    NetworkClassifier.classify_network nd = specResolve (computeScores nd) ∧
    (2 ≤ (priorities.filter
        (fun c => (computeScores nd).get c == maxScore (computeScores nd))).length →
      (NetworkClassifier.classify_network nd).2 ≤ 7/10) := by
  constructor
  · exact resolveScores_eq_specResolve (computeScores nd)
  · intro htie
    rw [show NetworkClassifier.classify_network nd = specResolve (computeScores nd) from
      resolveScores_eq_specResolve _]
    unfold specResolve
    by_cases hm : maxScore (computeScores nd) = 0
    · simp [hm]
      norm_num
    · simp only [hm, if_false]
      revert htie
      generalize priorities.filter
        (fun c => (computeScores nd).get c == maxScore (computeScores nd)) = L
      intro htie
      rcases L with _ | ⟨c, _ | ⟨c2, tl⟩⟩
      · simp at htie
      · simp at htie
      · simpa using min_le_left (7/10 : ℚ) ((maxScore (computeScores nd) : ℚ) / 10)

/-- Witness for `classifier_resolution_spec`: the SSID `"CORPWIFI"` scores 4
for both ENTERPRISE (`"CORP"`) and PUBLIC (`"WIFI"`), a genuine tie, and the
returned confidence is at most `0.7`. -/
theorem classifier_resolution_spec_witness :
    2 ≤ (priorities.filter
        (fun c => (computeScores ⟨"CORPWIFI", "WPA2", false, "Unknown", -60⟩).get c ==
          maxScore (computeScores ⟨"CORPWIFI", "WPA2", false, "Unknown", -60⟩))).length ∧
    (NetworkClassifier.classify_network ⟨"CORPWIFI", "WPA2", false, "Unknown", -60⟩).2 ≤ 7/10 :=
  ⟨by decide,
    (classifier_resolution_spec ⟨"CORPWIFI", "WPA2", false, "Unknown", -60⟩).2 (by decide)⟩

/-- A guarded accumulating fold adds `inc` once per satisfied element. -/
lemma foldl_add_count (q : String → Bool) (inc : Nat) :
    ∀ (l : List String) (cur : Nat),
      l.foldl (fun acc p => if q p then acc + inc else acc) cur
        = cur + inc * l.countP q := by
  intro l
  induction l with
  | nil => intro cur; simp
  | cons x xs ih =>
    intro cur
    by_cases hx : q x
    · simp only [List.foldl_cons, hx, if_true, ih, List.countP_cons, hx]
      ring
    · simp only [List.foldl_cons, hx, if_false, ih, List.countP_cons]
      simp [hx]

/-- Lemma: `addMatches` counts keyword matches. -/
lemma addMatches_eq (hay : String) (pats : List String) (inc cur : Nat) :
    addMatches hay pats inc cur = cur + inc * countKw hay pats :=
  foldl_add_count (fun p => containsStr hay p) inc pats cur

/-- The CONSUMER vendor fold adds `+2 STANDARD, +1 ISP_PROVIDED` per match. -/
lemma consumer_foldl (m : String) :
    ∀ (l : List String) (s : Scores),
      l.foldl
        (fun st x =>
          if containsStr m x then
            { st with STANDARD := st.STANDARD + 2, ISP_PROVIDED := st.ISP_PROVIDED + 1 }
          else st) s
      = { s with STANDARD := s.STANDARD + 2 * l.countP (fun x => containsStr m x),
                 ISP_PROVIDED := s.ISP_PROVIDED + l.countP (fun x => containsStr m x) } := by
  intro l
  induction l with
  | nil => intro s; simp
  | cons x xs ih =>
    intro s
    by_cases hx : containsStr m x
    · simp only [List.foldl_cons, hx, if_true, ih, List.countP_cons, Scores.mk.injEq]
      simp [hx]
      omega
    · simp only [List.foldl_cons, hx, if_false, ih, List.countP_cons, Scores.mk.injEq]
      simp [hx]

/-- Lemma: `consumerPass` in closed form. -/
lemma consumerPass_eq (m : String) (s : Scores) :
    consumerPass m s =
      { s with STANDARD := s.STANDARD + 2 * countKw m CONSUMER_MFGS,
               ISP_PROVIDED := s.ISP_PROVIDED + countKw m CONSUMER_MFGS } :=
  consumer_foldl m CONSUMER_MFGS s

set_option maxHeartbeats 1000000 in
/-- C2: the evidence-accumulation phase equals the claim's per-category sum
of independent contributions — concealment `+3 OFFICIAL, +2 ENTERPRISE`;
strong encryption `+2, +2, +1 ISP`, open `+3 PUBLIC`; `+4` per contained
keyword per category (stacking); vendor-class bonuses per matched vendor
keyword; and the signal-level bonuses at the `> -40` / `< -80` thresholds. -/
theorem classifier_scores_accumulate (nd : NetworkData) :
    computeScores nd = specScores nd := by
  obtain ⟨sd, enc, hid, mfg, sig⟩ := nd
  unfold computeScores specScores ssidPatternPass mfgPass
  simp only [addMatches_eq, consumerPass_eq]
  by_cases hh : hid <;> by_cases he1 : enc = "WPA2/WPA3" <;> by_cases he2 : enc = "Open" <;>
    by_cases hs1 : sig > -40 <;> by_cases hs2 : sig < -80
  all_goals first
    | (exfalso; rw [he1] at he2; exact absurd he2 (by decide))
    | (exfalso; omega)
    | (simp [hh, he1, he2, hs1, hs2, Scores.mk.injEq]; omega)
    | (simp [hh, he1, he2, hs1, hs2, Scores.mk.injEq])

/-- C3: `process_probe_response` changes state only when the station is in
`hidden_networks` (with an existing record) and the disclosed name decodes,
is non-empty, and is not the concealment sentinel; then it sets the record's
name, clears its `hidden` flag, updates `last_seen` and removes the id from
`hidden_networks`.  For an undecodable or empty or sentinel name, an id not
in `hidden_networks`, or an id without a record, the call is a no-op leaving
the whole state unchanged. -/
theorem probe_response_resolve_or_noop (st : ScanState) (b : String)
    (sd : Option String) (t : Nat) :
    (∀ s r, sd = some s → st.hidden_networks b = true → s ≠ "" →
      s ≠ "[Hidden Network]" → st.networks b = some r →
      process_probe_response st b sd t =
        { networks := fun j =>
            if j = b then some { r with ssid := s, hidden := false, last_seen := t }
            else st.networks j,
          hidden_networks := fun j => if j = b then false else st.hidden_networks j }) ∧
    ((sd = none ∨ sd = some "" ∨ sd = some "[Hidden Network]" ∨
        st.hidden_networks b = false ∨ st.networks b = none) →
      process_probe_response st b sd t = st) := by
  constructor
  · intro s r hsd hhid hne hsent hr
    subst hsd
    simp [process_probe_response, hhid, hne, hsent, hr]
  · intro hcase
    rcases hcase with h | h | h | h | h
    · subst h; rfl
    · subst h; simp [process_probe_response]
    · subst h; simp [process_probe_response]
    · cases sd with
      | none => rfl
      | some s => simp [process_probe_response, h]
    · cases sd with
      | none => rfl
      | some s =>
        unfold process_probe_response
        by_cases hhid : st.hidden_networks b
        · by_cases hcond : s ≠ "" ∧ s ≠ "[Hidden Network]"
          · simp [hhid, hcond, h]
          · simp [hhid, hcond]
        · simp [hhid]

/-- Witness for `probe_response_resolve_or_noop`: a concrete concealed
station is resolved by a disclosure, and a disclosure for an unknown
station is a no-op. -/
theorem probe_response_resolve_or_noop_witness :
    ((process_probe_response twoStationState "aa" (some "OFFICE-NET") 9).networks "aa" =
        some { ssid := "OFFICE-NET", bssid := "aa", channel := 6,
               encryption := "WPA2", signal := -55, manufacturer := "CISCO",
               first_seen := 1, last_seen := 9, hidden := false, type := "STANDARD" }) ∧
    process_probe_response init_state "cc" (some "OFFICE-NET") 9 = init_state := by
  constructor
  · have h := (probe_response_resolve_or_noop twoStationState "aa"
      (some "OFFICE-NET") 9).1 "OFFICE-NET" hiddenRec
      rfl (by simp [twoStationState]) (by simp) (by simp)
      (by simp [twoStationState])
    rw [h]
    simp [hiddenRec]
  · exact (probe_response_resolve_or_noop init_state "cc" (some "OFFICE-NET") 9).2
      (Or.inr (Or.inr (Or.inr (Or.inr rfl))))

/-- C10: when a probe-response disclosure resolves a concealed station, every
other station's record is untouched and the resolved record changes only in
`ssid`, `hidden` and `last_seen`; its `channel`, `encryption`, `signal`,
`manufacturer`, `type` and `first_seen` are carried over unchanged. -/
theorem probe_response_frame_effect (st : ScanState) (b s : String) (t : Nat)
    (r : NetRecord) (hhid : st.hidden_networks b = true) (hne : s ≠ "")
    (hsent : s ≠ "[Hidden Network]") (hr : st.networks b = some r) :
    (∀ j, j ≠ b → (process_probe_response st b (some s) t).networks j = st.networks j) ∧
    (process_probe_response st b (some s) t).networks b =
      some { ssid := s, bssid := r.bssid, channel := r.channel,
             encryption := r.encryption, signal := r.signal,
             manufacturer := r.manufacturer, first_seen := r.first_seen,
             last_seen := t, hidden := false, type := r.type } := by
  constructor
  · intro j hj
    simp [process_probe_response, hhid, hne, hsent, hr, hj]
  · simp [process_probe_response, hhid, hne, hsent, hr]

/-- Witness for `probe_response_frame_effect` at the concrete two-station
state: the other station's record survives, and the resolved record keeps
its radio fields. -/
theorem probe_response_frame_effect_witness :
    (process_probe_response twoStationState "aa" (some "OFFICE-NET") 9).networks "bb" =
        twoStationState.networks "bb" ∧
      (process_probe_response twoStationState "aa" (some "OFFICE-NET") 9).networks "aa" =
        some { ssid := "OFFICE-NET", bssid := "aa", channel := 6,
               encryption := "WPA2", signal := -55, manufacturer := "CISCO",
               first_seen := 1, last_seen := 9, hidden := false, type := "STANDARD" } := by
  have h := probe_response_frame_effect twoStationState "aa" "OFFICE-NET" 9 hiddenRec
    (by simp [twoStationState]) (by simp) (by simp) (by simp [twoStationState])
  refine ⟨h.1 "bb" (by simp), ?_⟩
  rw [h.2]
  simp [hiddenRec]

/-- C4 counterexample: after a second beacon for an existing station with a
new channel (6) and cipher ("Open"), the stored record still carries the
first-observed channel (1) and cipher ("WPA2") — the claimed overwrite with
the newest values does not happen. -/
theorem beacon_upsert_counterexample :
    ((process_beacon
        (process_beacon init_state "aa" (some "NetX") 1 "WPA2" (-50) "Vendor" 100)
        "aa" (some "NetX") 6 "Open" (-60) "Vendor" 200).networks "aa").map
      (fun r => (r.channel, r.encryption)) = some (1, "WPA2") ∧
    ((process_beacon
        (process_beacon init_state "aa" (some "NetX") 1 "WPA2" (-50) "Vendor" 100)
        "aa" (some "NetX") 6 "Open" (-60) "Vendor" 200).networks "aa").map
      (fun r => (r.channel, r.encryption)) ≠ some (6, "Open") := by
  constructor
  · simp [WifiScanner.process_beacon, init_state]
  · simp [WifiScanner.process_beacon, init_state]

/-- C4 (amended): for an existing station the scanner's beacon processing
updates only `signal` and `last_seen` (name, channel, encryption,
manufacturer, `first_seen`, `hidden` and `type` are untouched, and
`hidden_networks` is unchanged); the signal analyzer's beacon processing
appends the `(timestamp, signal)` sample and advances `last_seen`, leaving
the name and `first_seen` unchanged; and processing the same analyzer event
twice with an identical timestamp appends two samples without changing
`first_seen` or the name. -/
theorem beacon_upsert_existing (st : ScanState) (sst : SigState) (b : String)
    (sd : Option String) (ch : Nat) (e : String) (sg : Int) (m : String) (t : Nat)
    (r : NetRecord) (q : SignalAnalyzer.SigRecord)
    (hr : st.networks b = some r) (hq : sst.networks b = some q) :
    (process_beacon st b sd ch e sg m t).networks b =
        some { r with signal := sg, last_seen := t } ∧
    (process_beacon st b sd ch e sg m t).hidden_networks = st.hidden_networks ∧
    (SignalAnalyzer.process_beacon sst b sd sg t).networks b =
        some { q with last_seen := t, signals := q.signals ++ [(t, sg)] } ∧
    (SignalAnalyzer.process_beacon
        (SignalAnalyzer.process_beacon sst b sd sg t) b sd sg t).networks b =
      some { q with last_seen := t, signals := q.signals ++ [(t, sg), (t, sg)] } := by
  refine ⟨?_, ?_, ?_, ?_⟩
  · simp [WifiScanner.process_beacon, hr]
  · simp [WifiScanner.process_beacon, hr]
  · simp [SignalAnalyzer.process_beacon, hq]
  · simp [SignalAnalyzer.process_beacon, hq]

/-- Witness for `beacon_upsert_existing` at concrete one-station states. -/
theorem beacon_upsert_existing_witness :
    (process_beacon twoStationState "bb" (some "CAFE") 11 "WPA" (-61) "Unknown" 7).networks "bb" =
        some { visibleRec with signal := -61, last_seen := 7 } ∧
    (SignalAnalyzer.process_beacon
        { networks := fun j =>
            if j = "bb" then
              some { ssid := "CAFE", bssid := "bb", first_seen := 2, last_seen := 2,
                     signals := [(2, -70)] }
            else none,
          signal_history := fun _ => [] } "bb" (some "CAFE") (-61) 7).networks "bb" =
      some { ssid := "CAFE", bssid := "bb", first_seen := 2, last_seen := 7,
             signals := [(2, -70), (7, -61)] } := by
  have h := beacon_upsert_existing twoStationState
    { networks := fun j =>
        if j = "bb" then
          some { ssid := "CAFE", bssid := "bb", first_seen := 2, last_seen := 2,
                 signals := [(2, -70)] }
        else none,
      signal_history := fun _ => [] }
    "bb" (some "CAFE") 11 "WPA" (-61) "Unknown" 7 visibleRec
    { ssid := "CAFE", bssid := "bb", first_seen := 2, last_seen := 2,
      signals := [(2, -70)] }
    (by simp [twoStationState]) (by simp)
  exact ⟨h.1, h.2.2.1⟩

/-- Processing a beacon preserves the ConcealedSet invariant as long as the
decoded name is not the literal sentinel string. -/
lemma inv_step (st : ScanState) (e : WEvent) (hInv : Inv st) (he : goodEvent e) :
    Inv (process_packet st e) := by
  cases e with
  | beacon b sd ch enc sg m t =>
    unfold process_packet WifiScanner.process_beacon
    cases hb : st.networks b with
    | some r =>
      intro j
      by_cases hj : j = b
      · subst hj
        have := hInv j
        simp [hb] at this
        simp [hb, this]
      · simp [hb, hj, hInv j]
    | none =>
      have hsetfalse : st.hidden_networks b = false := by
        have := hInv b
        simp [hb] at this
        exact this
      cases sd with
      | none =>
        intro j
        by_cases hj : j = b
        · subst hj
          simp [hb, hsetfalse]
        · simp [hb, hj, hInv j]
      | some s =>
        have hsent : s ≠ "[Hidden Network]" := by
          simpa [goodEvent] using he
        by_cases hs : s = ""
        · subst hs
          intro j
          by_cases hj : j = b
          · subst hj
            simp [hb]
          · simp [hb, hj, hInv j]
        · intro j
          by_cases hj : j = b
          · subst hj
            simp [hb, hs, hsetfalse, hsent]
          · simp [hb, hs, hj, hInv j]
  | probe b sd t =>
    unfold process_packet process_probe_response
    cases sd with
    | none => exact hInv
    | some s =>
      by_cases hhid : st.hidden_networks b
      · by_cases hcond : s ≠ "" ∧ s ≠ "[Hidden Network]"
        · cases hb : st.networks b with
          | some r =>
            intro j
            by_cases hj : j = b
            · subst hj
              simp [hhid, hcond.1, hcond.2, hb]
            · simp [hhid, hcond.1, hcond.2, hb, hj, hInv j]
          | none =>
            simpa [hhid, hcond.1, hcond.2, hb] using hInv
        · simpa [hhid, hcond] using hInv
      · simpa [hhid] using hInv

/-- The ConcealedSet invariant holds in the empty initial state and is
preserved along any sentinel-free event sequence. -/
lemma inv_run (st : ScanState) (evs : List WEvent) (hInv : Inv st)
    (h : ∀ e ∈ evs, goodEvent e) : Inv (run_events st evs) := by
  induction evs generalizing st with
  | nil => exact hInv
  | cons e tl ih =>
    exact ih (process_packet st e) (inv_step st e hInv (h e (by simp)))
      (fun x hx => h x (by simp [hx]))

/-- C5 counterexample: a beacon whose genuine advertised name is the literal
sentinel string `"[Hidden Network]"` creates a record with `hidden = true`
while leaving the station out of `hidden_networks`, so ConcealedSet does not
equal the set of concealed records. -/
theorem concealed_set_counterexample :
    ((WifiScanner.process_beacon init_state "aa" (some "[Hidden Network]")
        1 "Open" (-50) "V" 10).networks "aa").map NetRecord.hidden = some true ∧
    (WifiScanner.process_beacon init_state "aa" (some "[Hidden Network]")
        1 "Open" (-50) "V" 10).hidden_networks "aa" = false := by
  constructor
  · simp [WifiScanner.process_beacon, init_state]
  · simp [WifiScanner.process_beacon, init_state]

/-- C5 (amended): for every event sequence in which no beacon's decoded name
is the literal sentinel string `"[Hidden Network]"`, after processing from
the empty initial state, `hidden_networks` equals exactly the set of ids of
records whose `hidden` flag is true. -/
theorem concealed_set_invariant (evs : List WEvent)
    (h : ∀ e ∈ evs, goodEvent e) : Inv (run_events init_state evs) := by
  refine inv_run init_state evs ?_ h
  intro j
  simp [init_state]

/-- Witness for `concealed_set_invariant` after one concealed beacon and one
disclosure. -/
theorem concealed_set_invariant_witness :
    Inv (run_events init_state
      [WEvent.beacon "aa" (some "") 1 "Open" (-50) "V" 10,
       WEvent.probe "aa" (some "OFFICE-NET") 20]) :=
  concealed_set_invariant _ (by
    intro e he
    simp only [List.mem_cons, List.mem_singleton] at he
    rcases he with rfl | rfl | h
    · simp [goodEvent]
    · simp [goodEvent]
    · simp at h)

/-- Any single event preserves resolvedness of a station: its record stays
present with `hidden = false` and it stays out of `hidden_networks`. -/
lemma resolved_step (st : ScanState) (b : String) (h : resolvedFor st b)
    (e : WEvent) : resolvedFor (process_packet st e) b := by
  obtain ⟨hmap, hset⟩ := h
  cases e with
  | beacon b2 sd ch enc sg m t =>
    unfold process_packet WifiScanner.process_beacon
    by_cases hb2 : b2 = b
    · subst hb2
      cases hb : st.networks b2 with
      | some r =>
        have hr : r.hidden = false := by
          rw [hb] at hmap
          simpa using hmap
        constructor
        · simp [resolvedFor, hb, hr]
        · simpa [hb] using hset
      | none => rw [hb] at hmap; simp at hmap
    · have hb2x : ¬ b = b2 := fun hc => hb2 hc.symm
      cases hb : st.networks b2 with
      | some r =>
        constructor
        · simpa [hb, hb2x] using hmap
        · simpa [hb] using hset
      | none =>
        constructor
        · simpa [hb, hb2x] using hmap
        · by_cases hs : (match sd with | none => "Unknown" | some s => s) = "" <;>
            simp [hb, hs, hb2x, hset]
  | probe b2 sd t =>
    unfold process_packet process_probe_response
    cases sd with
    | none => exact ⟨hmap, hset⟩
    | some s =>
      by_cases hb2 : b2 = b
      · subst hb2
        simp only [hset, Bool.false_eq_true, if_false]
        exact ⟨hmap, hset⟩
      · have hb2x : ¬ b = b2 := fun hc => hb2 hc.symm
        by_cases hhid : st.hidden_networks b2
        · by_cases hcond : s ≠ "" ∧ s ≠ "[Hidden Network]"
          · cases hb : st.networks b2 with
            | some r =>
              constructor
              · simpa [hhid, hcond.1, hcond.2, hb, hb2x] using hmap
              · simpa [hhid, hcond.1, hcond.2, hb, hb2x] using hset
            | none =>
              simp [hhid, hcond.1, hcond.2, hb]
              exact ⟨hmap, hset⟩
          · simp [hhid, hcond]
            exact ⟨hmap, hset⟩
        · simp [hhid]
          exact ⟨hmap, hset⟩

/-- C6: once a station is resolved (record present with `hidden = false` and
id outside `hidden_networks`), no later event sequence — in particular no
beacon omitting the name — re-conceals it or re-inserts it into
`hidden_networks`. -/
theorem resolver_monotonic (st : ScanState) (b : String) (h : resolvedFor st b)
    (evs : List WEvent) : resolvedFor (run_events st evs) b := by
  induction evs generalizing st with
  | nil => exact h
  | cons e tl ih => exact ih (process_packet st e) (resolved_step st b h e)

/-- Witness for `resolver_monotonic`: a station concealed by a beacon and
resolved by a disclosure stays resolved after a further nameless beacon and
a sentinel-named beacon. -/
theorem resolver_monotonic_witness :
    resolvedFor (run_events init_state
      [WEvent.beacon "aa" (some "") 1 "Open" (-50) "V" 10,
       WEvent.probe "aa" (some "OFFICE-NET") 20]) "aa" ∧
    resolvedFor (run_events (run_events init_state
      [WEvent.beacon "aa" (some "") 1 "Open" (-50) "V" 10,
       WEvent.probe "aa" (some "OFFICE-NET") 20])
      [WEvent.beacon "aa" none 1 "Open" (-90) "V" 30,
       WEvent.beacon "aa" (some "") 6 "Open" (-91) "V" 40]) "aa" := by
  have h0 : resolvedFor (run_events init_state
      [WEvent.beacon "aa" (some "") 1 "Open" (-50) "V" 10,
       WEvent.probe "aa" (some "OFFICE-NET") 20]) "aa" := by
    constructor
    · simp [run_events, process_packet, WifiScanner.process_beacon,
        process_probe_response, init_state]
    · simp [run_events, process_packet, WifiScanner.process_beacon,
        process_probe_response, init_state]
  exact ⟨h0, resolver_monotonic _ "aa" h0 _⟩

/-- C9: with fewer than 3 samples the analyzer does not fail: it returns the
explicit insufficient-data report, whose stability band is UNKNOWN
(`"Unknown"`). -/
theorem analyzer_insufficient_data (signals : List (Nat × Int))
    (h : signals.length < 3) :
    SignalAnalyzer.analyze_signal_stability signals =
      { stability := "Unknown", std_dev_sq := 0, mean := none, median := none,
        sigMin := none, sigMax := none, range := 0, trend := "Unknown" } := by
  unfold SignalAnalyzer.analyze_signal_stability
  rw [if_pos h]

/-- Witness for `analyzer_insufficient_data` at the empty sample list. -/
theorem analyzer_insufficient_data_witness :
    ([] : List (Nat × Int)).length < 3 ∧
      SignalAnalyzer.analyze_signal_stability [] =
        { stability := "Unknown", std_dev_sq := 0, mean := none, median := none,
          sigMin := none, sigMax := none, range := 0, trend := "Unknown" } :=
  ⟨by decide, analyzer_insufficient_data [] (by decide)⟩

/-- C8: with at least 3 samples the stability band is assigned from the
standard deviation of the signal values — below 2 (variance below 4) gives
VERY_STABLE, below 5 (variance 25) STABLE, below 10 (variance 100) MODERATE,
else UNSTABLE; the sequence `[-50, -51, -49, -50, -52]` has variance 26/25
(standard deviation ≈ 1.02) and yields VERY_STABLE. -/
theorem analyzer_stability_bands (signals : List (Nat × Int))
    (h : 3 ≤ signals.length) :
    ((SignalAnalyzer.analyze_signal_stability signals).stability =
      (let var := varQ (signals.map Prod.snd)
       if var < 4 then "Very Stable"
       else if var < 25 then "Stable"
       else if var < 100 then "Moderately Stable"
       else "Unstable")) ∧
    (SignalAnalyzer.analyze_signal_stability
        [(0, -50), (1, -51), (2, -49), (3, -50), (4, -52)]).stability = "Very Stable" ∧
    (SignalAnalyzer.analyze_signal_stability
        [(0, -50), (1, -51), (2, -49), (3, -50), (4, -52)]).std_dev_sq = 26 / 25 := by
  refine ⟨?_,
    by norm_num [SignalAnalyzer.analyze_signal_stability, meanQ, sumInts, varQ,
      listMin, listMax, medianInt, sortInts, insertSorted],
    by norm_num [SignalAnalyzer.analyze_signal_stability, meanQ, sumInts, varQ,
      listMin, listMax, medianInt, sortInts, insertSorted]⟩
  have h1 : ¬ signals.length < 3 := by omega
  simp [SignalAnalyzer.analyze_signal_stability, h1]

/-- Witness for `analyzer_stability_bands` at the claim's 5-sample sequence. -/
theorem analyzer_stability_bands_witness :
    3 ≤ ([(0, -50), (1, -51), (2, -49), (3, -50), (4, -52)] : List (Nat × Int)).length ∧
      (SignalAnalyzer.analyze_signal_stability
          [(0, -50), (1, -51), (2, -49), (3, -50), (4, -52)]).stability = "Very Stable" :=
  ⟨by decide,
    (analyzer_stability_bands [(0, -50), (1, -51), (2, -49), (3, -50), (4, -52)]
      (by decide)).2.1⟩

/-- C7 counterexample: with 2 samples the report's trend is the string
`"Unknown"` (the early insufficient-data return), not `"Insufficient Data"`,
so "with fewer than 10 samples the trend is INSUFFICIENT_DATA" fails below 3
samples. -/
theorem analyzer_trend_short_counterexample :
    (SignalAnalyzer.analyze_signal_stability [(0, -50), (1, -50)]).trend = "Unknown" ∧
      ("Unknown" : String) ≠ "Insufficient Data" :=
  ⟨rfl, by decide⟩

/-- C7 (amended): with at least 10 samples the trend compares the means of
the first and second halves split at the midpoint (difference > 3 improving,
< −3 deteriorating, else stable); with at least 3 but fewer than 10 samples
the trend is INSUFFICIENT_DATA (`"Insufficient Data"`); with fewer than 3
samples the early report's trend is UNKNOWN (`"Unknown"`); and the claim's
10-sample sequence yields DETERIORATING. -/
theorem analyzer_trend_spec (signals : List (Nat × Int)) :
    ((10 ≤ signals.length →
      (SignalAnalyzer.analyze_signal_stability signals).trend =
        (let vals := signals.map Prod.snd
         if meanQ (vals.drop (vals.length / 2)) - meanQ (vals.take (vals.length / 2)) > 3
         then "Improving"
         else if meanQ (vals.take (vals.length / 2)) - meanQ (vals.drop (vals.length / 2)) > 3
         then "Deteriorating"
         else "Stable")) ∧
    (3 ≤ signals.length → signals.length < 10 →
      (SignalAnalyzer.analyze_signal_stability signals).trend = "Insufficient Data") ∧
    (signals.length < 3 →
      (SignalAnalyzer.analyze_signal_stability signals).trend = "Unknown")) ∧
    (SignalAnalyzer.analyze_signal_stability
        [(0, -50), (1, -50), (2, -50), (3, -50), (4, -50),
         (5, -60), (6, -60), (7, -60), (8, -60), (9, -60)]).trend = "Deteriorating" := by
  refine ⟨⟨?_, ?_, ?_⟩,
    by norm_num [SignalAnalyzer.analyze_signal_stability, meanQ, sumInts, varQ,
      listMin, listMax, medianInt, sortInts, insertSorted]⟩
  · intro h10
    have h1 : ¬ signals.length < 3 := by omega
    simp [SignalAnalyzer.analyze_signal_stability, h1, h10, List.length_map]
  · intro h3 h10
    have h1 : ¬ signals.length < 3 := by omega
    have h2 : ¬ 10 ≤ signals.length := by omega
    simp [SignalAnalyzer.analyze_signal_stability, h1, h2, List.length_map]
  · intro h3
    simp [SignalAnalyzer.analyze_signal_stability, h3]

/-- Witness for `analyzer_trend_spec`: a 5-sample list is in the
insufficient-data trend band, and a 1-sample list in the unknown band. -/
theorem analyzer_trend_spec_witness :
    (3 ≤ ([(0, -50), (1, -51), (2, -49), (3, -50), (4, -52)] : List (Nat × Int)).length ∧
      ([(0, -50), (1, -51), (2, -49), (3, -50), (4, -52)] : List (Nat × Int)).length < 10 ∧
      (SignalAnalyzer.analyze_signal_stability
          [(0, -50), (1, -51), (2, -49), (3, -50), (4, -52)]).trend = "Insufficient Data") ∧
    (([(0, -50)] : List (Nat × Int)).length < 3 ∧
      (SignalAnalyzer.analyze_signal_stability [(0, -50)]).trend = "Unknown") :=
  ⟨⟨by decide, by decide,
      (analyzer_trend_spec [(0, -50), (1, -51), (2, -49), (3, -50), (4, -52)]).1.2.1
        (by decide) (by decide)⟩,
    ⟨by decide, (analyzer_trend_spec [(0, -50)]).1.2.2 (by decide)⟩⟩
